import Mathlib

/-!
Shallow embedding of the request/cache/validation pipeline of
`esak/session.py` (class `Session`): cache-key construction
(`_create_cached_params`), authentication signing (`_create_auth_hash`,
`_update_params`), cache collaborator access (`_get_results_from_cache`,
`_save_results_to_cache`), the request pipeline (`_call`) and the singular
resource fetch template (`comic`, `series`, ...).

Python dictionaries are embedded as association lists with insertion-order
semantics (`dictGet?`, `dictInsert`).  JSON values decoded by
`response.json()` are embedded as `JValue`.  The MD5 digest from `hashlib`
is embedded abstractly: an `MD5Ctx` accumulates the exact byte stream fed
through `update`, and `hexdigest` applies an arbitrary digest function to
the accumulated bytes, so theorems about `_create_auth_hash` are statements
about which bytes are digested in which order.  The HTTP transport
(`requests.get`) and the wall clock (`datetime.now().strftime`) are
injected as parameters.  Python control-flow failures that the source does
not catch (KeyError from `data["results"]`, IndexError from `results[0]`)
are embedded as distinct error constructors, separate from the library's
`ApiError` and `CacheError`.
-/

namespace Esak

/-- JSON values as decoded from a response body or stored in the cache. -/
inductive JValue where
  | null
  | bool (b : Bool)
  | num (n : Int)
  | str (s : String)
  | arr (items : List JValue)
  | obj (fields : List (String × JValue))

/-- Scalar query-parameter values; `urlencode` stringifies them like
Python's `str`. -/
inductive PValue where
  | str (s : String)
  | int (n : Int)
deriving DecidableEq

/-- Caller-supplied query parameters: a Python `dict[str, Any]` embedded as
an association list in insertion order, keys unique. -/
abbrev Params := List (String × PValue)

/-- Association-list lookup, mirroring Python `d[k]` / `d.get(k)` on a
dict. -/
def dictGet? {α : Type} : List (String × α) → String → Option α
  | [], _ => none
  | (k', v) :: rest, k => if k' = k then some v else dictGet? rest k

/-- Association-list update, mirroring Python `d[k] = v`: replaces in place
when the key exists, otherwise appends. -/
def dictInsert {α : Type} : List (String × α) → String → α → List (String × α)
  | [], k, v => [(k, v)]
  | (k', v') :: rest, k, v =>
    if k' = k then (k, v) :: rest else (k', v') :: dictInsert rest k v

/-- Subscripting a JSON value with a string key, `data["results"]`:
`some` on an object that has the field, `none` where Python would raise
`KeyError` (or `TypeError` on a non-dict). -/
def jSubscript : JValue → String → Option JValue
  | .obj fields, k => dictGet? fields k
  | _, _ => none

/-- Subscripting a JSON value with an integer index, `results[0]`:
`none` where Python would raise `IndexError` (or `TypeError`). -/
def jIndex : JValue → Nat → Option JValue
  | .arr items, i => items.get? i
  | _, _ => none

/-- Python `value != 200` for a JSON value against the int literal `200`
(`bool` compares as 0/1 in Python; other types are never equal to an
int). -/
def jEq200 : JValue → Bool
  | .num n => n == 200
  | .bool b => (if b then (1 : Int) else 0) == 200
  | _ => false

/-- `data.get("code", 200) != 200` from `Session._call`. -/
def codeFieldBad (fields : List (String × JValue)) : Bool :=
  match dictGet? fields "code" with
  | none => false
  | some v => !jEq200 v

/-- `data.get("status")`: Python `None` becomes JSON null. -/
def jOpt : Option JValue → JValue
  | none => .null
  | some v => v

/-- The unwrap step of `_call`, `if "data" in data: data = data["data"]`:
the `data` field when the body has one, the body itself otherwise. -/
def unwrapData (fields : List (String × JValue)) : JValue :=
  match dictGet? fields "data" with
  | some d => d
  | none => .obj fields

/-- An endpoint path segment: `list[str | int]` in the source. -/
inductive Seg where
  | s (v : String)
  | i (n : Int)

/-- Python `str(e)` on a path segment. -/
def Seg.toStr : Seg → String
  | .s v => v
  | .i n => toString n

/-- `self.api_url.format("/".join(str(e) for e in endpoint))`. -/
def formatUrl (endpoint : List Seg) : String :=
  "http://gateway.marvel.com:80/v1/public/" ++
    String.intercalate "/" (endpoint.map Seg.toStr)

/-- `_quoter` byte classification of `urllib.parse.quote_plus`: ASCII
letters, digits and `_.-~` pass through unescaped. -/
def safeByte (b : UInt8) : Bool :=
  (48 ≤ b && b ≤ 57) || (65 ≤ b && b ≤ 90) || (97 ≤ b && b ≤ 122) ||
    b == 95 || b == 46 || b == 45 || b == 126

/-- One uppercase hex digit. -/
def hexDigit (n : Nat) : Char :=
  if n < 10 then Char.ofNat (48 + n) else Char.ofNat (55 + n)

/-- `quote_plus` on a single UTF-8 byte: space becomes `+`, safe bytes pass
through, the rest are percent-encoded in uppercase hex. -/
def quoteByte (b : UInt8) : String :=
  if b == 32 then "+"
  else if safeByte b then String.singleton (Char.ofNat b.toNat)
  else "%" ++ String.singleton (hexDigit (b.toNat / 16)) ++
    String.singleton (hexDigit (b.toNat % 16))

/-- `urllib.parse.quote_plus` over the UTF-8 encoding of a string. -/
def quotePlus (s : String) : String :=
  String.join ((s.toUTF8.toList.map quoteByte))

/-- Python `str(v)` on a parameter value. -/
def PValue.toStr : PValue → String
  | .str s => s
  | .int n => toString n

/-- `urllib.parse.urlencode` on an ordered mapping: `k=v` pairs,
quote-plus-encoded, joined with `&`. -/
def urlencode (ps : Params) : String :=
  String.intercalate "&" (ps.map fun p => quotePlus p.1 ++ "=" ++ quotePlus p.2.toStr)

/-- The sort order of `sorted(params.items(), key=lambda t: t[0])`:
compare entries by parameter name. -/
def keyLE (a b : String × PValue) : Prop := a.1 ≤ b.1

instance : DecidableRel keyLE := fun a b =>
  inferInstanceAs (Decidable (a.1 ≤ b.1))

/-- `Session._create_cached_params`: empty string for no parameters,
otherwise a `?`-prefixed url-encoding of the entries sorted by key. -/
def createCachedParams (params : Params) : String :=
  if params.isEmpty then ""
  else "?" ++ urlencode (List.insertionSort keyLE params)

/-- The state of a `hashlib.md5()` object: the bytes fed so far through
`update`. -/
structure MD5Ctx where
  data : List UInt8

/-- `md5_object.update(s.encode("utf-8"))`. -/
def MD5Ctx.updateStr (c : MD5Ctx) (s : String) : MD5Ctx :=
  ⟨c.data ++ s.toUTF8.toList⟩

/-- `md5_object.hexdigest()`, with the digest function itself abstract:
what the embedding tracks is exactly which bytes were digested. -/
def MD5Ctx.hexdigest (digest : List UInt8 → String) (c : MD5Ctx) : String :=
  digest c.data

/-- The session configuration: credentials plus the optional cache
collaborator. -/
structure CacheObj where
  hasGet : Bool
  hasStore : Bool
  contents : List (String × JValue)

structure Session where
  public_key : String
  private_key : String
  cache : Option CacheObj

/-- `Session._create_auth_hash`: feed the timestamp string, the private
key and the public key, in that order, through one md5 object. -/
def createAuthHash (digest : List UInt8 → String) (s : Session)
    (now_string : String) : String :=
  ((((⟨[]⟩ : MD5Ctx).updateStr now_string).updateStr s.private_key).updateStr
    s.public_key).hexdigest digest

/-- `Session._update_params`: adds `hash`, `apikey` and `ts` to the
parameter mapping, the hash and `ts` derived from the same `now_string`. -/
def updateParams (digest : List UInt8 → String) (s : Session)
    (params : Params) (now_string : String) : Params :=
  dictInsert
    (dictInsert
      (dictInsert params "hash" (.str (createAuthHash digest s now_string)))
      "apikey" (.str s.public_key))
    "ts" (.str now_string)

/-- The failure modes of the pipeline.  `apiError` and `cacheError` are the
library's own exception types; `keyError` and `indexError` stand for the
uncaught Python `KeyError`/`TypeError` of `data["results"]` and the
uncaught `IndexError`/`TypeError` of `results[0]`.  `cacheError` records
which attribute was missing on the cache collaborator. -/
inductive CallErr where
  | apiError (msg : JValue)
  | cacheError (missingAttr : String)
  | keyError (key : String)
  | indexError

/-- `Session._get_results_from_cache`: `None` without a cache or on a
miss; a `CacheError` when the collaborator lacks `get`. -/
def getResultsFromCache (cache : Option CacheObj) (key : String) :
    Except CallErr (Option JValue) :=
  match cache with
  | none => .ok none
  | some c =>
    if c.hasGet then .ok (dictGet? c.contents key)
    else .error (.cacheError "get")

/-- `Session._save_results_to_cache`, returning the collaborator's new
contents; a `CacheError` when the collaborator lacks `store`. -/
def saveResultsToCache (cache : Option CacheObj) (key : String)
    (data : JValue) : Except CallErr (Option CacheObj) :=
  match cache with
  | none => .ok none
  | some c =>
    if c.hasStore then
      .ok (some { c with contents := dictInsert c.contents key data })
    else .error (.cacheError "store")

/-- A decoded HTTP response: status code and the JSON object body returned
by `response.json()` (the remote envelope is a JSON object). -/
structure HResp where
  status : Nat
  body : List (String × JValue)

/-- The transport collaborator: `requests.get(url, params=params,
headers=self.headers)` followed by `response.json()`. -/
abbrev Transport := String → Params → HResp

/-- Everything observable about one `Session._call` invocation: its result
or failure, the cache collaborator's state afterwards, the cache key it
used, whether the transport was invoked, whether the cache-write step
(line `if response.status_code == 200`) was reached, and the parameter
mapping as the call leaves it (the source mutates `params` in place). -/
structure CallTrace where
  outcome : Except CallErr JValue
  cache : Option CacheObj
  usedKey : String
  transportCalled : Bool
  storeStepReached : Bool
  finalParams : Params

/-- `Session._call` on the cache-miss path, after the lookup returned no
entry: sign, request, classify, cache, extract `results`. -/
def callMiss (digest : List UInt8 → String) (transport : Transport)
    (s : Session) (url cacheKey : String) (params : Params)
    (now_string : String) : CallTrace :=
  let params' := updateParams digest s params now_string
  let resp := transport url params'
  if (dictGet? resp.body "message").isSome then
    { outcome := .error (.apiError (jOpt (dictGet? resp.body "message"))),
      cache := s.cache, usedKey := cacheKey, transportCalled := true,
      storeStepReached := false, finalParams := params' }
  else if codeFieldBad resp.body then
    { outcome := .error (.apiError (jOpt (dictGet? resp.body "status"))),
      cache := s.cache, usedKey := cacheKey, transportCalled := true,
      storeStepReached := false, finalParams := params' }
  else
    let data : JValue :=
      match dictGet? resp.body "data" with
      | some d => d
      | none => .obj resp.body
    if resp.status = 200 then
      match saveResultsToCache s.cache cacheKey data with
      | .error e =>
        { outcome := .error e, cache := s.cache, usedKey := cacheKey,
          transportCalled := true, storeStepReached := true,
          finalParams := params' }
      | .ok newCache =>
        match jSubscript data "results" with
        | some r =>
          { outcome := .ok r, cache := newCache, usedKey := cacheKey,
            transportCalled := true, storeStepReached := true,
            finalParams := params' }
        | none =>
          { outcome := .error (.keyError "results"), cache := newCache,
            usedKey := cacheKey, transportCalled := true,
            storeStepReached := true, finalParams := params' }
    else
      match jSubscript data "results" with
      | some r =>
        { outcome := .ok r, cache := s.cache, usedKey := cacheKey,
          transportCalled := true, storeStepReached := false,
          finalParams := params' }
      | none =>
        { outcome := .error (.keyError "results"), cache := s.cache,
          usedKey := cacheKey, transportCalled := true,
          storeStepReached := false, finalParams := params' }

/-- `Session._call`: build the cache key from the caller-supplied params,
consult the cache, and only on a miss sign and go to the network. -/
def call (digest : List UInt8 → String) (transport : Transport)
    (s : Session) (endpoint : List Seg) (params : Params)
    (now_string : String) : CallTrace :=
  let url := formatUrl endpoint
  let cacheKey := url ++ createCachedParams params
  match getResultsFromCache s.cache cacheKey with
  | .error e =>
    { outcome := .error e, cache := s.cache, usedKey := cacheKey,
      transportCalled := false, storeStepReached := false,
      finalParams := params }
  | .ok (some cached) =>
    match jSubscript cached "results" with
    | some r =>
      { outcome := .ok r, cache := s.cache, usedKey := cacheKey,
        transportCalled := false, storeStepReached := false,
        finalParams := params }
    | none =>
      { outcome := .error (.keyError "results"), cache := s.cache,
        usedKey := cacheKey, transportCalled := false,
        storeStepReached := false, finalParams := params }
  | .ok none => callMiss digest transport s url cacheKey params now_string

/-- What a singular fetch returns, plus the observable side state. -/
structure FetchTrace (Record : Type) where
  outcome : Except CallErr Record
  cache : Option CacheObj
  transportCalled : Bool

/-- The singular-fetch template of `Session.comic` / `series` / `creator`
/ `character` / `story` / `event`:
`result = self._call([resource, _id])[0]` then pydantic validation, with
only `ValidationError` caught and wrapped in `ApiError`.

The pydantic `TypeAdapter(...).validate_python` step lives in the schema
modules outside this file's source; `validate` embeds its contract
(Modelled from the spec: `validate(json) -> Record | ValidationFault`). -/
def singularFetch {Record : Type} (digest : List UInt8 → String)
    (transport : Transport) (validate : JValue → Except String Record)
    (s : Session) (resource : String) (id : Int)
    (now_string : String) : FetchTrace Record :=
  let t := call digest transport s [.s resource, .i id] [] now_string
  match t.outcome with
  | .error e => ⟨.error e, t.cache, t.transportCalled⟩
  | .ok results =>
    match jIndex results 0 with
    | none => ⟨.error .indexError, t.cache, t.transportCalled⟩
    | some r0 =>
      match validate r0 with
      | .ok record => ⟨.ok record, t.cache, t.transportCalled⟩
      | .error fault => ⟨.error (.apiError (.str fault)), t.cache, t.transportCalled⟩

/-- `Session.comic`. -/
def comic {Comic : Type} (digest : List UInt8 → String)
    (transport : Transport) (validate : JValue → Except String Comic)
    (s : Session) (id : Int) (now_string : String) : FetchTrace Comic :=
  singularFetch digest transport validate s "comics" id now_string

/-! Basic facts about the association-list embedding of Python dicts. -/

theorem dictGet?_dictInsert_self {α : Type} (l : List (String × α))
    (k : String) (v : α) : dictGet? (dictInsert l k v) k = some v := by
  induction l with
  | nil => simp [dictInsert, dictGet?]
  | cons p rest ih =>
    obtain ⟨k', v'⟩ := p
    by_cases h : k' = k
    · simp [dictInsert, dictGet?, h]
    · simp [dictInsert, dictGet?, h, ih]

theorem dictGet?_dictInsert_ne {α : Type} (l : List (String × α))
    (k j : String) (v : α) (h : j ≠ k) :
    dictGet? (dictInsert l j v) k = dictGet? l k := by
  induction l with
  | nil => simp [dictInsert, dictGet?, h]
  | cons p rest ih =>
    obtain ⟨k', v'⟩ := p
    by_cases h' : k' = j
    · simp [dictInsert, dictGet?, h', h]
    · simp [dictInsert, dictGet?, h', ih]

/-! Path-independent facts about `_call`'s miss branch. -/

theorem callMiss_shape (digest : List UInt8 → String) (transport : Transport)
    (s : Session) (url cacheKey : String) (params : Params)
    (now_string : String) :
    (callMiss digest transport s url cacheKey params now_string).finalParams =
        updateParams digest s params now_string ∧
      (callMiss digest transport s url cacheKey params now_string).usedKey =
        cacheKey ∧
      (callMiss digest transport s url cacheKey params now_string).transportCalled =
        true := by
  unfold callMiss
  dsimp only
  split
  · exact ⟨rfl, rfl, rfl⟩
  · split
    · exact ⟨rfl, rfl, rfl⟩
    · split
      · split
        · exact ⟨rfl, rfl, rfl⟩
        · split
          · exact ⟨rfl, rfl, rfl⟩
          · exact ⟨rfl, rfl, rfl⟩
      · split
        · exact ⟨rfl, rfl, rfl⟩
        · exact ⟨rfl, rfl, rfl⟩

theorem call_usedKey (digest : List UInt8 → String) (transport : Transport)
    (s : Session) (endpoint : List Seg) (params : Params)
    (now_string : String) :
    (call digest transport s endpoint params now_string).usedKey =
      formatUrl endpoint ++ createCachedParams params := by
  unfold call
  dsimp only
  split
  · rfl
  · split <;> rfl
  · exact (callMiss_shape ..).2.1

/-! Concrete instances used by the witnesses. -/

/-- A concrete digest function (the embedding treats the digest as
abstract). -/
def digestW : List UInt8 → String := fun _ => "d41d8cd9"

/-- A transport that never matters (used in cache-hit scenarios). -/
def transportW : Transport := fun _ _ => ⟨200, []⟩

/-- The cache key of endpoint `["comics"]` with no parameters. -/
def keyW : String := "http://gateway.marvel.com:80/v1/public/comics"

/-- A cached envelope holding one result. -/
def envelopeW : JValue := .obj [("results", .arr [.num 1])]

/-- A functional cache collaborator pre-populated for `keyW`. -/
def cacheW : CacheObj := ⟨true, true, [(keyW, envelopeW)]⟩

/-- A session wired to `cacheW`. -/
def sessionW : Session := ⟨"pub_key", "priv_key", some cacheW⟩

/-- C9: after `_update_params(params)` runs, `params["hash"]` is the
hex digest of the byte-concatenation of (timestamp string, private key,
public key) in that exact order, and `params["ts"]` carries the very same
timestamp string the hash was derived from. -/
theorem C9_auth_hash_derivation (digest : List UInt8 → String) (s : Session)
    (params : Params) (now_string : String) :
    dictGet? (updateParams digest s params now_string) "hash" =
      some (.str (digest (now_string.toUTF8.toList ++
        s.private_key.toUTF8.toList ++ s.public_key.toUTF8.toList))) ∧
    dictGet? (updateParams digest s params now_string) "ts" =
      some (.str now_string) := by
  unfold updateParams
  constructor
  · rw [dictGet?_dictInsert_ne _ _ _ _ (by decide),
      dictGet?_dictInsert_ne _ _ _ _ (by decide),
      dictGet?_dictInsert_self]
    simp [createAuthHash, MD5Ctx.updateStr, MD5Ctx.hexdigest]
  · rw [dictGet?_dictInsert_self]

/-- C1: when the cache collaborator holds an entry for the key built from
the endpoint and caller params, `_call` returns that entry's `results`
field directly, never invokes the transport, and never reaches the
cache-store step. -/
theorem C1_cache_hit_short_circuit (digest : List UInt8 → String)
    (transport : Transport) (s : Session) (endpoint : List Seg)
    (params : Params) (now_string : String) (c : CacheObj) (V r : JValue)
    (hc : s.cache = some c) (hg : c.hasGet = true)
    (hl : dictGet? c.contents
      (formatUrl endpoint ++ createCachedParams params) = some V)
    (hr : jSubscript V "results" = some r) :
    (call digest transport s endpoint params now_string).outcome = .ok r ∧
    (call digest transport s endpoint params now_string).transportCalled = false ∧
    (call digest transport s endpoint params now_string).storeStepReached = false := by
  unfold call
  dsimp only
  rw [hc]
  simp [getResultsFromCache, hg, hl, hr]

/-- C1 witness: a pre-populated cache entry for the `comics` endpoint is
served back with no transport invocation and no store. -/
theorem C1_witness :
    (call digestW transportW sessionW [.s "comics"] [] "ts").outcome =
      .ok (.arr [.num 1]) ∧
    (call digestW transportW sessionW [.s "comics"] [] "ts").transportCalled =
      false ∧
    (call digestW transportW sessionW [.s "comics"] [] "ts").storeStepReached =
      false :=
  C1_cache_hit_short_circuit digestW transportW sessionW [.s "comics"] []
    "ts" cacheW envelopeW (.arr [.num 1]) rfl rfl rfl rfl

/-- C2: the cache key `_call` uses is built from the caller-supplied
params before `_update_params` adds `hash`, `apikey`, `ts`; two calls with
the same endpoint and caller params but different timestamps use the same
key, and that key equals the URL plus `_create_cached_params` of the
caller params only. -/
theorem C2_cache_key_ignores_time (digest : List UInt8 → String)
    (transport : Transport) (s : Session) (endpoint : List Seg)
    (params : Params) (now1 now2 : String)
    (h1 : dictGet? params "hash" = none)
    (h2 : dictGet? params "apikey" = none)
    (h3 : dictGet? params "ts" = none) :
    (call digest transport s endpoint params now1).usedKey =
      (call digest transport s endpoint params now2).usedKey ∧
    (call digest transport s endpoint params now1).usedKey =
      formatUrl endpoint ++ createCachedParams params := by
  refine ⟨?_, call_usedKey ..⟩
  rw [call_usedKey, call_usedKey]

/-- C2 witness: two timestamps, one key. -/
theorem C2_witness :
    (call digestW transportW sessionW [.s "comics"]
        [("orderBy", .str "modified")] "2020-01-0100:00:00").usedKey =
      (call digestW transportW sessionW [.s "comics"]
        [("orderBy", .str "modified")] "2021-06-3012:34:56").usedKey ∧
    (call digestW transportW sessionW [.s "comics"]
        [("orderBy", .str "modified")] "2020-01-0100:00:00").usedKey =
      formatUrl [.s "comics"] ++
        createCachedParams [("orderBy", .str "modified")] :=
  C2_cache_key_ignores_time digestW transportW sessionW [.s "comics"]
    [("orderBy", .str "modified")] "2020-01-0100:00:00" "2021-06-3012:34:56"
    rfl rfl rfl

/-- C10: on a cache hit `_call` leaves the caller's params untouched; the
auth fields are added (by `_update_params`) only on the cache-miss path. -/
theorem C10_params_untouched_on_hit (digest : List UInt8 → String)
    (transport : Transport) (s : Session) (endpoint : List Seg)
    (params : Params) (now_string : String) :
    (∀ c V, s.cache = some c → c.hasGet = true →
      dictGet? c.contents
        (formatUrl endpoint ++ createCachedParams params) = some V →
      (call digest transport s endpoint params now_string).finalParams =
        params) ∧
    (getResultsFromCache s.cache
        (formatUrl endpoint ++ createCachedParams params) = .ok none →
      (call digest transport s endpoint params now_string).finalParams =
        updateParams digest s params now_string) := by
  constructor
  · intro c V hc hg hl
    unfold call
    dsimp only
    rw [hc]
    simp only [getResultsFromCache, hg, if_true, hl]
    rcases h : jSubscript V "results" with _ | r <;> simp [h]
  · intro hmiss
    unfold call
    dsimp only
    rw [hmiss]
    exact (callMiss_shape ..).1

/-- C10 witness: the cache-hit case at a concrete pre-populated cache, and
the miss case at a cache-free session. -/
theorem C10_witness :
    (call digestW transportW sessionW [.s "comics"] [] "ts").finalParams =
      [] ∧
    (call digestW transportW ⟨"pub_key", "priv_key", none⟩ [.s "comics"] []
        "ts").finalParams =
      updateParams digestW ⟨"pub_key", "priv_key", none⟩ [] "ts" :=
  ⟨(C10_params_untouched_on_hit digestW transportW sessionW [.s "comics"] []
      "ts").1 cacheW envelopeW rfl rfl rfl,
   (C10_params_untouched_on_hit digestW transportW
      ⟨"pub_key", "priv_key", none⟩ [.s "comics"] [] "ts").2 rfl⟩

/-- A session with no cache collaborator. -/
def sessionPlainW : Session := ⟨"pub_key", "priv_key", none⟩

/-- A functional cache collaborator with no entries. -/
def cacheEmptyW : CacheObj := ⟨true, true, []⟩

/-- A cache collaborator lacking the `get` operation. -/
def cacheNoGetW : CacheObj := ⟨false, true, []⟩

/-- A cache collaborator lacking the `store` operation. -/
def cacheNoStoreW : CacheObj := ⟨true, false, []⟩

/-- A transport answering 200 with an error-message body. -/
def transportMsgW : Transport := fun _ _ => ⟨200, [("message", .str "bad key")]⟩

/-- A transport answering 500 with a well-formed data envelope. -/
def transport500W : Transport :=
  fun _ _ => ⟨500, [("data", .obj [("results", .arr [])])]⟩

/-- A transport answering 200 with a data envelope that has no `results`. -/
def transportNoResultsW : Transport := fun _ _ => ⟨200, [("data", .obj [])]⟩

/-- A transport answering 500 with a body carrying neither a `data`
wrapper nor any of the classified fields. -/
def transport500NoDataW : Transport :=
  fun _ _ => ⟨500, [("copyright", .str "c")]⟩

/-- A transport answering 200 with an empty `results` array. -/
def transportEmptyW : Transport :=
  fun _ _ => ⟨200, [("data", .obj [("results", .arr [])])]⟩

/-- A transport answering 200 with a one-element `results` array. -/
def transportOneW : Transport :=
  fun _ _ => ⟨200, [("data", .obj [("results", .arr [.num 1])])]⟩

/-- A trivial validator for the abstract domain-record contract. -/
def validateUnitW : JValue → Except String Unit := fun _ => .ok ()

/-- C4: a response body carrying a `message` field makes `_call` raise
`ApiError` with that message — whatever the HTTP status, 200 included —
and the cache-store step is never reached, leaving the cache unchanged. -/
theorem C4_message_error_never_cached (digest : List UInt8 → String)
    (transport : Transport) (s : Session) (endpoint : List Seg)
    (params : Params) (now_string : String) (msg : JValue)
    (hmiss : getResultsFromCache s.cache
      (formatUrl endpoint ++ createCachedParams params) = .ok none)
    (hm : dictGet? (transport (formatUrl endpoint)
        (updateParams digest s params now_string)).body "message" = some msg) :
    (call digest transport s endpoint params now_string).outcome =
      .error (.apiError msg) ∧
    (call digest transport s endpoint params now_string).storeStepReached =
      false ∧
    (call digest transport s endpoint params now_string).cache = s.cache := by
  unfold call
  dsimp only
  rw [hmiss]
  unfold callMiss
  dsimp only
  simp [hm, jOpt]

/-- C4 witness: `{"message": "bad key"}` with HTTP 200 raises `ApiError`
and writes nothing to the (present, functional) cache. -/
theorem C4_witness :
    (call digestW transportMsgW ⟨"pub_key", "priv_key", some cacheEmptyW⟩
        [.s "comics"] [] "ts").outcome =
      .error (.apiError (.str "bad key")) ∧
    (call digestW transportMsgW ⟨"pub_key", "priv_key", some cacheEmptyW⟩
        [.s "comics"] [] "ts").storeStepReached = false ∧
    (call digestW transportMsgW ⟨"pub_key", "priv_key", some cacheEmptyW⟩
        [.s "comics"] [] "ts").cache = some cacheEmptyW :=
  C4_message_error_never_cached digestW transportMsgW
    ⟨"pub_key", "priv_key", some cacheEmptyW⟩ [.s "comics"] [] "ts"
    (.str "bad key") rfl rfl

/-- C8: a cache collaborator lacking `get` makes `_call` fail with
`CacheError` before any network traffic (a failed lookup is never treated
as a miss), and one lacking `store` makes the cache-write step of a
successful 200 response fail with `CacheError`. -/
theorem C8_malformed_cache_collaborator (digest : List UInt8 → String)
    (transport : Transport) (s : Session) (endpoint : List Seg)
    (params : Params) (now_string : String) (c : CacheObj)
    (hc : s.cache = some c) :
    (c.hasGet = false →
      (call digest transport s endpoint params now_string).outcome =
        .error (.cacheError "get") ∧
      (call digest transport s endpoint params now_string).transportCalled =
        false) ∧
    (∀ fields, c.hasGet = true → c.hasStore = false →
      dictGet? c.contents
        (formatUrl endpoint ++ createCachedParams params) = none →
      transport (formatUrl endpoint)
        (updateParams digest s params now_string) = ⟨200, fields⟩ →
      dictGet? fields "message" = none →
      codeFieldBad fields = false →
      (call digest transport s endpoint params now_string).outcome =
        .error (.cacheError "store")) := by
  constructor
  · intro hg
    unfold call
    dsimp only
    rw [hc]
    simp [getResultsFromCache, hg]
  · intro fields hg hs hl ht hm hcode
    unfold call
    dsimp only
    rw [hc]
    simp only [getResultsFromCache, hg, if_true, hl]
    unfold callMiss
    dsimp only
    rw [ht]
    dsimp only
    simp only [hm, Option.isSome_none, Bool.false_eq_true, if_false, hcode]
    rcases hd : dictGet? fields "data" with _ | d <;>
      simp [hd, saveResultsToCache, hc, hs]

/-- C8 witness: a get-less collaborator fails the lookup with `CacheError`
and no transport call; a store-less collaborator fails the cache write of
a successful response with `CacheError`. -/
theorem C8_witness :
    ((call digestW transportW ⟨"pub_key", "priv_key", some cacheNoGetW⟩
        [.s "comics"] [] "ts").outcome = .error (.cacheError "get") ∧
      (call digestW transportW ⟨"pub_key", "priv_key", some cacheNoGetW⟩
        [.s "comics"] [] "ts").transportCalled = false) ∧
    (call digestW transportEmptyW ⟨"pub_key", "priv_key", some cacheNoStoreW⟩
        [.s "comics"] [] "ts").outcome = .error (.cacheError "store") :=
  ⟨(C8_malformed_cache_collaborator digestW transportW
      ⟨"pub_key", "priv_key", some cacheNoGetW⟩ [.s "comics"] [] "ts"
      cacheNoGetW rfl).1 rfl,
   (C8_malformed_cache_collaborator digestW transportEmptyW
      ⟨"pub_key", "priv_key", some cacheNoStoreW⟩ [.s "comics"] [] "ts"
      cacheNoStoreW rfl).2 [("data", .obj [("results", .arr [])])]
      rfl rfl rfl rfl rfl rfl⟩

/-- C5 (code bug, evaluated at the failing input): a 500 response whose
body is a clean `{"data": {"results": []}}` envelope makes `_call` return
the results normally — no `ApiError` is raised for the non-200 status,
which only gates the cache write.  This contradicts `_call`'s own
docstring ("Raises ApiError: ... if the status code is not 200"). -/
theorem C5_non200_returns_results :
    (call digestW transport500W sessionPlainW [.s "comics"] [] "ts").outcome =
      .ok (.arr []) ∧
    (call digestW transport500W sessionPlainW [.s "comics"] [] "ts").transportCalled =
      true ∧
    (call digestW transport500W sessionPlainW [.s "comics"] [] "ts").storeStepReached =
      false :=
  ⟨rfl, rfl, rfl⟩

/-- C6 counterexample: a 200 response `{"data": {}}` passes error
classification, lacks `results`, and `_call` fails with an uncaught
`KeyError`, not the `ApiError` the claim states. -/
theorem C6_counterexample :
    (call digestW transportNoResultsW sessionPlainW [.s "comics"] []
        "ts").outcome = .error (.keyError "results") ∧
    ∀ m, (call digestW transportNoResultsW sessionPlainW [.s "comics"] []
        "ts").outcome ≠ .error (.apiError m) := by
  have hval : (call digestW transportNoResultsW sessionPlainW [.s "comics"]
      [] "ts").outcome = .error (.keyError "results") := rfl
  refine ⟨hval, fun m h => ?_⟩
  rw [hval] at h
  exact CallErr.noConfusion (Except.error.inj h)

/-- C6 amended: every response that passes error classification but whose
unwrapped body — the `data` field when the wrapper is present, the body
itself otherwise — lacks `results` makes `_call` fail with an uncaught
`KeyError` (`data["results"]`), not `ApiError`, whatever the HTTP status;
on the 200 path this presumes the cache-write step itself succeeds (a
store-less collaborator would raise `CacheError` there first). -/
theorem C6_missing_results_keyerror (digest : List UInt8 → String)
    (transport : Transport) (s : Session) (endpoint : List Seg)
    (params : Params) (now_string : String) (status : Nat)
    (fields : List (String × JValue))
    (hmiss : getResultsFromCache s.cache
      (formatUrl endpoint ++ createCachedParams params) = .ok none)
    (ht : transport (formatUrl endpoint)
      (updateParams digest s params now_string) = ⟨status, fields⟩)
    (hm : dictGet? fields "message" = none)
    (hcode : codeFieldBad fields = false)
    (hr : jSubscript (unwrapData fields) "results" = none)
    (hsave : status = 200 → ∃ newCache, saveResultsToCache s.cache
      (formatUrl endpoint ++ createCachedParams params)
      (unwrapData fields) = .ok newCache) :
    (call digest transport s endpoint params now_string).outcome =
      .error (.keyError "results") := by
  unfold call
  dsimp only
  rw [hmiss]
  unfold callMiss
  dsimp only
  rw [ht]
  dsimp only
  simp only [hm, Option.isSome_none, Bool.false_eq_true, if_false, hcode]
  unfold unwrapData at hr hsave
  rcases hd : dictGet? fields "data" with _ | d
  · simp only [hd] at hr hsave
    by_cases hs : status = 200
    · obtain ⟨newCache, hnc⟩ := hsave hs
      simp [hd, hs, hnc, hr]
    · simp [hd, hs, hr]
  · simp only [hd] at hr hsave
    by_cases hs : status = 200
    · obtain ⟨newCache, hnc⟩ := hsave hs
      simp [hd, hs, hnc, hr]
    · simp [hd, hs, hr]

/-- C6 amended witness: the `{"data": {}}` scenario of the counterexample
at status 200, and a 500 response with no `data` wrapper at all — both
fail with the uncaught `KeyError`. -/
theorem C6_witness :
    (call digestW transportNoResultsW sessionPlainW [.s "comics"] []
        "ts").outcome = .error (.keyError "results") ∧
    (call digestW transport500NoDataW sessionPlainW [.s "comics"] []
        "ts").outcome = .error (.keyError "results") :=
  ⟨C6_missing_results_keyerror digestW transportNoResultsW sessionPlainW
      [.s "comics"] [] "ts" 200 [("data", .obj [])]
      rfl rfl rfl rfl rfl (fun _ => ⟨none, rfl⟩),
   C6_missing_results_keyerror digestW transport500NoDataW sessionPlainW
      [.s "comics"] [] "ts" 500 [("copyright", .str "c")]
      rfl rfl rfl rfl rfl (fun h => absurd h (by decide))⟩

/-- C7 counterexample: `comic(45762)` on a 200 response with an empty
`results` array fails with an uncaught `IndexError` from `results[0]`
(only `ValidationError` is caught), not the `ApiError` the claim states. -/
theorem C7_counterexample :
    (comic digestW transportEmptyW validateUnitW sessionPlainW 45762
        "ts").outcome = .error .indexError ∧
    ∀ m, (comic digestW transportEmptyW validateUnitW sessionPlainW 45762
        "ts").outcome ≠ .error (.apiError m) := by
  have hval : (comic digestW transportEmptyW validateUnitW sessionPlainW
      45762 "ts").outcome = .error .indexError := rfl
  refine ⟨hval, fun m h => ?_⟩
  rw [hval] at h
  exact CallErr.noConfusion (Except.error.inj h)

/-- C7 amended: a singular fetch whose pipeline call succeeds fails with
an uncaught `IndexError` (not `ApiError`) when `results` is empty;
when `results` has at least one element, element 0 goes through the
validator — a successful validation is returned as the record, a
validation fault is wrapped in `ApiError`. -/
theorem C7_singular_fetch_indexing {Record : Type}
    (digest : List UInt8 → String) (transport : Transport)
    (validate : JValue → Except String Record) (s : Session)
    (resource : String) (id : Int) (now_string : String) (results : JValue)
    (hok : (call digest transport s [.s resource, .i id] []
      now_string).outcome = .ok results) :
    (jIndex results 0 = none →
      (singularFetch digest transport validate s resource id
        now_string).outcome = .error .indexError) ∧
    (∀ r0 record, jIndex results 0 = some r0 → validate r0 = .ok record →
      (singularFetch digest transport validate s resource id
        now_string).outcome = .ok record) ∧
    (∀ r0 fault, jIndex results 0 = some r0 → validate r0 = .error fault →
      (singularFetch digest transport validate s resource id
        now_string).outcome = .error (.apiError (.str fault))) := by
  refine ⟨fun h0 => ?_, fun r0 record h0 hv => ?_, fun r0 fault h0 hv => ?_⟩ <;>
    · unfold singularFetch
      dsimp only
      rw [hok]
      simp [h0]
      try simp [hv]

/-- C7 amended witness: empty results give `IndexError`; a one-element
results array is validated into the record. -/
theorem C7_witness :
    (singularFetch digestW transportEmptyW validateUnitW sessionPlainW
        "comics" 45762 "ts").outcome = .error .indexError ∧
    (singularFetch digestW transportOneW validateUnitW sessionPlainW
        "comics" 45762 "ts").outcome = .ok () :=
  ⟨(C7_singular_fetch_indexing digestW transportEmptyW validateUnitW
      sessionPlainW "comics" 45762 "ts" (.arr []) rfl).1 rfl,
   (C7_singular_fetch_indexing digestW transportOneW validateUnitW
      sessionPlainW "comics" 45762 "ts" (.arr [.num 1]) rfl).2.1
      (.num 1) () rfl rfl⟩

/-! The sort order used by `_create_cached_params` is total and
transitive, and strict on the keys of a duplicate-free mapping. -/

instance : IsTotal (String × PValue) keyLE := ⟨fun a b => le_total a.1 b.1⟩

instance : IsTrans (String × PValue) keyLE := ⟨fun _ _ _ h1 h2 => le_trans h1 h2⟩

/-- Two parameter mappings holding the same entries (in any insertion
order, keys unique) sort to the same entry list. -/
theorem insertionSort_eq_of_perm (P1 P2 : Params) (hperm : P1.Perm P2)
    (hnd : (P1.map Prod.fst).Nodup) :
    List.insertionSort keyLE P1 = List.insertionSort keyLE P2 := by
  haveI : IsAntisymm (String × PValue) (fun a b => a.1 < b.1) :=
    ⟨fun a b h1 h2 => absurd h2 (lt_asymm h1)⟩
  have hp : (List.insertionSort keyLE P1).Perm (List.insertionSort keyLE P2) :=
    (List.perm_insertionSort keyLE P1).trans
      (hperm.trans (List.perm_insertionSort keyLE P2).symm)
  have hnd1 : ((List.insertionSort keyLE P1).map Prod.fst).Nodup :=
    (((List.perm_insertionSort keyLE P1).map Prod.fst).nodup_iff).2 hnd
  have hnd2 : ((List.insertionSort keyLE P2).map Prod.fst).Nodup :=
    ((hp.map Prod.fst).nodup_iff).1 hnd1
  have hs1 := List.sorted_insertionSort keyLE P1
  have hs2 := List.sorted_insertionSort keyLE P2
  have hlt1 : (List.insertionSort keyLE P1).Pairwise (fun a b => a.1 < b.1) :=
    hs1.imp₂ (fun _ _ hle hne => lt_of_le_of_ne hle hne)
      (List.pairwise_map.mp hnd1)
  have hlt2 : (List.insertionSort keyLE P2).Pairwise (fun a b => a.1 < b.1) :=
    hs2.imp₂ (fun _ _ hle hne => lt_of_le_of_ne hle hne)
      (List.pairwise_map.mp hnd2)
  exact List.eq_of_perm_of_sorted hp hlt1 hlt2

/-- C3: the cache key is insertion-order independent — mappings equal as
sets of entries build the same key — and structurally it is the joined URL
followed, for a non-empty mapping, by a `?`-prefixed url-encoding of the
entries sorted ascending by parameter name (nothing appended when
empty). -/
theorem C3_cache_key_determinism (endpoint : List Seg) (P1 P2 : Params)
    (hperm : P1.Perm P2) (hnd : (P1.map Prod.fst).Nodup) :
    formatUrl endpoint ++ createCachedParams P1 =
      formatUrl endpoint ++ createCachedParams P2 ∧
    (P1 ≠ [] →
      formatUrl endpoint ++ createCachedParams P1 =
        formatUrl endpoint ++
          ("?" ++ urlencode (List.insertionSort keyLE P1))) ∧
    (P1 = [] →
      formatUrl endpoint ++ createCachedParams P1 = formatUrl endpoint) ∧
    ((List.insertionSort keyLE P1).map Prod.fst).Sorted (fun a b => a ≤ b) := by
  have hsort := insertionSort_eq_of_perm P1 P2 hperm hnd
  have hcp : createCachedParams P1 = createCachedParams P2 := by
    rcases hP1 : P1 with _ | ⟨p, t⟩
    · have h2 : P2 = [] := by
        rw [hP1] at hperm
        exact hperm.symm.eq_nil
      rw [h2]
    · rcases hP2 : P2 with _ | ⟨q, u⟩
      · rw [hP1, hP2] at hperm
        exact absurd hperm.eq_nil (by simp)
      · rw [hP1, hP2] at hsort
        unfold createCachedParams
        simp only [List.isEmpty_cons, hsort]
  refine ⟨by rw [hcp], fun hne => ?_, fun heq => ?_, ?_⟩
  · rcases P1 with _ | ⟨p, t⟩
    · exact absurd rfl hne
    · unfold createCachedParams
      simp [String.append_assoc]
  · subst heq
    simp [createCachedParams]
  · exact List.pairwise_map.mpr (List.sorted_insertionSort keyLE P1)

/-- C3 witness: two insertion orders of `{"b": 2, "a": "x"}` build one
key. -/
theorem C3_witness :
    formatUrl [.s "comics"] ++
        createCachedParams [("b", .int 2), ("a", .str "x")] =
      formatUrl [.s "comics"] ++
        createCachedParams [("a", .str "x"), ("b", .int 2)] ∧
    (([("b", PValue.int 2), ("a", PValue.str "x")] : Params) ≠ [] →
      formatUrl [.s "comics"] ++
          createCachedParams [("b", .int 2), ("a", .str "x")] =
        formatUrl [.s "comics"] ++
          ("?" ++ urlencode (List.insertionSort keyLE
            [("b", .int 2), ("a", .str "x")]))) ∧
    (([("b", PValue.int 2), ("a", PValue.str "x")] : Params) = [] →
      formatUrl [.s "comics"] ++
          createCachedParams [("b", .int 2), ("a", .str "x")] =
        formatUrl [.s "comics"]) ∧
    ((List.insertionSort keyLE
        [("b", .int 2), ("a", .str "x")]).map Prod.fst).Sorted
      (fun a b => a ≤ b) :=
  C3_cache_key_determinism [.s "comics"] [("b", .int 2), ("a", .str "x")]
    [("a", .str "x"), ("b", .int 2)]
    (List.Perm.swap ("a", PValue.str "x") ("b", PValue.int 2) [])
    (by decide)

end Esak
